import Mathlib

/-!
Verification of the light-wave refraction visualizer (LightVis.py).

The development embeds the two pure computational components of the program:

* the colour mapper `wavelength_to_rgb` (source lines 11-59), modelled over
  exact rationals with Python's round-half-to-even rounding; and
* the wave-field computation `calculate_wave` of `WaveSimulationWidget`
  (source lines 197-242), modelled over the reals with `Real.sin`,
  including the sequential overwrite semantics of the three numpy mask
  assignments (mask1, then mask2, then mask3: the last write wins where
  masks overlap).
-/

namespace LightVis

/-- Python's built-in `round`: round half to even (banker's rounding),
as used on lines 55-57 of the source. -/
def pyRound (q : ℚ) : ℤ :=
  if q - (⌊q⌋ : ℚ) < 1/2 then ⌊q⌋
  else if 1/2 < q - (⌊q⌋ : ℚ) then ⌊q⌋ + 1
  else if ⌊q⌋ % 2 = 0 then ⌊q⌋ else ⌊q⌋ + 1

/-- The raw (r, g, b) channels of `wavelength_to_rgb`, source lines 18-43:
the six-band Bruton piecewise-linear table, with the fall-through branch
returning 0.5 for each channel. -/
def rawRGB (nm : ℚ) : ℚ × ℚ × ℚ :=
  if 380 ≤ nm ∧ nm < 440 then (-(nm - 440) / (440 - 380), 0, 1)
  else if 440 ≤ nm ∧ nm < 490 then (0, (nm - 440) / (490 - 440), 1)
  else if 490 ≤ nm ∧ nm < 510 then (0, 1, -(nm - 510) / (510 - 490))
  else if 510 ≤ nm ∧ nm < 580 then ((nm - 510) / (580 - 510), 1, 0)
  else if 580 ≤ nm ∧ nm < 645 then (1, -(nm - 645) / (645 - 580), 0)
  else if 645 ≤ nm ∧ nm ≤ 750 then (1, 0, 0)
  else (1/2, 1/2, 1/2)

/-- The brightness attenuation factor of `wavelength_to_rgb`, source
lines 46-53.  Note the fall-through branch sets the factor to 0, and it
applies to every wavelength outside [380, 750]. -/
def brightnessFactor (nm : ℚ) : ℚ :=
  if 380 ≤ nm ∧ nm < 420 then 0.3 + 0.7 * (nm - 380) / (420 - 380)
  else if 420 ≤ nm ∧ nm < 700 then 1
  else if 700 ≤ nm ∧ nm ≤ 750 then 0.3 + 0.7 * (750 - nm) / (750 - 700)
  else 0

/-- `wavelength_to_rgb`, source lines 11-59: each channel is
`round(255 * raw * factor)` with Python rounding. -/
def wavelength_to_rgb (nm : ℚ) : ℤ × ℤ × ℤ :=
  (pyRound (255 * (rawRGB nm).1 * brightnessFactor nm),
   pyRound (255 * (rawRGB nm).2.1 * brightnessFactor nm),
   pyRound (255 * (rawRGB nm).2.2 * brightnessFactor nm))

/-- The raw channel table exactly as the specification words it: six
spectral bands, half-open except the last, with the tabulated linear
formulas.  Used only to compare the specification against the source. -/
def specRawRGB (nm : ℚ) : ℚ × ℚ × ℚ :=
  if 380 ≤ nm ∧ nm < 440 then (-(nm - 440) / 60, 0, 1)
  else if 440 ≤ nm ∧ nm < 490 then (0, (nm - 440) / 50, 1)
  else if 490 ≤ nm ∧ nm < 510 then (0, 1, -(nm - 510) / 20)
  else if 510 ≤ nm ∧ nm < 580 then ((nm - 510) / 70, 1, 0)
  else if 580 ≤ nm ∧ nm < 645 then (1, -(nm - 645) / 65, 0)
  else if 645 ≤ nm ∧ nm ≤ 750 then (1, 0, 0)
  else (1/2, 1/2, 1/2)

/-- The brightness factor exactly as the specification words it: a linear
ramp from 0.3 to 1.0 over [380, 420), full intensity 1.0 over [420, 700),
and a linear ramp from 1.0 down to 0.3 over [700, 750]. -/
def specFactor (nm : ℚ) : ℚ :=
  if 380 ≤ nm ∧ nm < 420 then 0.3 + (1 - 0.3) * (nm - 380) / (420 - 380)
  else if 420 ≤ nm ∧ nm < 700 then 1
  else if 700 ≤ nm ∧ nm ≤ 750 then 1 + (0.3 - 1) * (nm - 700) / (750 - 700)
  else 0

/-- The per-channel output the specification prescribes on the visible
band: `round(255 * raw_channel * factor)` per channel, independently. -/
def specRGB (nm : ℚ) : ℤ × ℤ × ℤ :=
  (pyRound (255 * (specRawRGB nm).1 * specFactor nm),
   pyRound (255 * (specRawRGB nm).2.1 * specFactor nm),
   pyRound (255 * (specRawRGB nm).2.2 * specFactor nm))

/-!
## The wave-field computation

`WaveSimulationWidget` stores the simulation parameters as instance
fields (source lines 86-101); `calculate_wave(self, wavelength)` reads
them and writes no field.
-/

/-- The simulation-parameter fields of `WaveSimulationWidget` that
`calculate_wave` can see (source lines 86-101). -/
structure WaveState where
  wavelength : ℝ
  amplitude : ℝ
  speed : ℝ
  n1 : ℝ
  n2 : ℝ
  n3 : ℝ
  time : ℝ
  prism_mode : Bool
  white_light : Bool
  boundary1 : ℝ
  boundary2 : ℝ

/-- `self.visualization_scale = 0.1`, source line 89; the source never
reassigns it. -/
noncomputable def visualization_scale : ℝ := 0.1

/-- The fixed position domain `np.linspace(0, 3000, 3000)` (source line
104): 3000 evenly spaced samples from 0 to 3000 inclusive, so the i-th
position is `3000 * i / 2999`. -/
noncomputable def xPos (i : ℕ) : ℝ := 3000 * i / 2999

/-- Effective index of medium 2 for a given wavelength: the Cauchy-style
correction of source line 210 when `prism_mode` is set, else `n2`
(source line 214). -/
noncomputable def n2_wl (s : WaveState) (wavelength : ℝ) : ℝ :=
  if s.prism_mode then s.n2 + 0.0006 * (550 / wavelength) ^ 2 else s.n2

/-- Effective index of medium 3, source lines 211 and 215. -/
noncomputable def n3_wl (s : WaveState) (wavelength : ℝ) : ℝ :=
  if s.prism_mode then s.n3 + 0.0008 * (550 / wavelength) ^ 2 else s.n3

/-- Wave number in medium 1, source line 218 (`n1` is used unmodified). -/
noncomputable def k1 (s : WaveState) (wavelength : ℝ) : ℝ :=
  2 * Real.pi * s.n1 / wavelength

/-- Wave number in medium 2, source line 219. -/
noncomputable def k2 (s : WaveState) (wavelength : ℝ) : ℝ :=
  2 * Real.pi * n2_wl s wavelength / wavelength

/-- Wave number in medium 3, source line 220. -/
noncomputable def k3 (s : WaveState) (wavelength : ℝ) : ℝ :=
  2 * Real.pi * n3_wl s wavelength / wavelength

/-- The value `calculate_wave` leaves at position `x`.  The source
initialises the array to zeros and then assigns through the three masks
in order (mask1 at line 227, mask2 at line 233, mask3 at line 240), so
where masks overlap the later assignment wins: the final value is the
mask3 formula where `x > boundary2`, else the mask2 formula where
`boundary1 < x ≤ boundary2`, else the mask1 formula where
`x ≤ boundary1`, else the initial 0. -/
noncomputable def waveAt (s : WaveState) (wavelength : ℝ) (x : ℝ) : ℝ :=
  if s.boundary2 < x then
    s.amplitude * visualization_scale *
      Real.sin (k3 s wavelength * (x - s.boundary2) - s.speed * s.time)
  else if s.boundary1 < x ∧ x ≤ s.boundary2 then
    s.amplitude * visualization_scale *
      Real.sin (k2 s wavelength * (x - s.boundary1) - s.speed * s.time)
  else if x ≤ s.boundary1 then
    s.amplitude * visualization_scale *
      Real.sin (k1 s wavelength * x - s.speed * s.time)
  else 0

/-- `calculate_wave(self, wavelength)`, source lines 197-242: the
3000-sample amplitude sequence. -/
noncomputable def calculate_wave (s : WaveState) (wavelength : ℝ) : List ℝ :=
  (List.range 3000).map fun i => waveAt s wavelength (xPos i)

/-- The method call as a state transformer: the body of
`calculate_wave` assigns only local variables (`wave`, `n2_wl`, `n3_wl`,
`k1`, `k2`, `k3`, `omega`, the masks and phases) and no `self` field, so
the widget state after the call is the state before it. -/
noncomputable def calculate_wave_method (s : WaveState) (wavelength : ℝ) :
    List ℝ × WaveState :=
  (calculate_wave s wavelength, s)

/-- The documented default parameter values (source lines 86-101):
wavelength 550, amplitude 5, speed 2, n1 = 1.0003, n2 = 1.33, n3 = 1.52,
time 0, both modes off, boundaries 1000 and 2000. -/
noncomputable def s0 : WaveState :=
  ⟨550, 5, 2, 1.0003, 1.33, 1.52, 0, false, false, 1000, 2000⟩

/-- The default parameters with the boundary order deliberately violated:
boundary1 = 2000, boundary2 = 1000 (the scenario of the failure-semantics
section of the specification). -/
noncomputable def s1 : WaveState :=
  ⟨550, 5, 2, 1.0003, 1.33, 1.52, 0, false, false, 2000, 1000⟩

/-!
## Helper lemmas
-/

theorem calculate_wave_length (s : WaveState) (wavelength : ℝ) :
    (calculate_wave s wavelength).length = 3000 := by
  simp [calculate_wave]

theorem calculate_wave_getD (s : WaveState) (wavelength : ℝ) (i : ℕ)
    (hi : i < 3000) :
    (calculate_wave s wavelength).getD i 0 = waveAt s wavelength (xPos i) := by
  simp [calculate_wave, List.getD_eq_getElem?_getD, List.getElem?_map,
    List.getElem?_range, hi]

theorem abs_waveAt_le (s : WaveState) (wavelength x : ℝ) :
    |waveAt s wavelength x| ≤ |s.amplitude| * visualization_scale := by
  have hs : ∀ θ : ℝ, |Real.sin θ| ≤ 1 := fun θ =>
    abs_le.mpr ⟨Real.neg_one_le_sin θ, Real.sin_le_one θ⟩
  have hvs : (0:ℝ) ≤ visualization_scale := by norm_num [visualization_scale]
  have key : ∀ θ : ℝ, |s.amplitude * visualization_scale * Real.sin θ| ≤
      |s.amplitude| * visualization_scale := by
    intro θ
    rw [abs_mul, abs_mul, abs_of_nonneg hvs]
    have h1 : |s.amplitude| * visualization_scale * |Real.sin θ| ≤
        |s.amplitude| * visualization_scale * 1 :=
      mul_le_mul_of_nonneg_left (hs θ) (mul_nonneg (abs_nonneg _) hvs)
    simpa using h1
  unfold waveAt
  split_ifs
  · exact key _
  · exact key _
  · exact key _
  · simpa using mul_nonneg (abs_nonneg s.amplitude) hvs

theorem pyRound_eq_or (q : ℚ) :
    pyRound q = ⌊q⌋ ∨ (pyRound q = ⌊q⌋ + 1 ∧ 1/2 ≤ q - (⌊q⌋ : ℚ)) := by
  unfold pyRound
  split_ifs with h1 h2 h3
  · exact Or.inl rfl
  · exact Or.inr ⟨rfl, le_of_not_lt h1⟩
  · exact Or.inl rfl
  · exact Or.inr ⟨rfl, le_of_not_lt h1⟩

theorem pyRound_mem (q : ℚ) (h0 : 0 ≤ q) (h255 : q ≤ 255) :
    0 ≤ pyRound q ∧ pyRound q ≤ 255 := by
  have hfl : (⌊q⌋ : ℚ) ≤ q := Int.floor_le q
  have hf0 : (0:ℤ) ≤ ⌊q⌋ := Int.floor_nonneg.mpr h0
  have hf255 : ⌊q⌋ ≤ 255 := by
    have h := Int.floor_le_floor h255
    simpa using h
  rcases pyRound_eq_or q with h | ⟨h, hhalf⟩
  · rw [h]; exact ⟨hf0, hf255⟩
  · rw [h]
    have hlt : (⌊q⌋ : ℚ) < 255 := by linarith
    have hlt2 : ⌊q⌋ < 255 := by exact_mod_cast hlt
    omega

theorem rawRGB_mem (nm : ℚ) :
    (0 ≤ (rawRGB nm).1 ∧ (rawRGB nm).1 ≤ 1) ∧
    (0 ≤ (rawRGB nm).2.1 ∧ (rawRGB nm).2.1 ≤ 1) ∧
    (0 ≤ (rawRGB nm).2.2 ∧ (rawRGB nm).2.2 ≤ 1) := by
  unfold rawRGB
  split_ifs with h1 h2 h3 h4 h5 h6
  · obtain ⟨ha, hb⟩ := h1
    exact ⟨⟨by linarith, by linarith⟩, ⟨by norm_num, by norm_num⟩,
      ⟨by norm_num, by norm_num⟩⟩
  · obtain ⟨ha, hb⟩ := h2
    exact ⟨⟨by norm_num, by norm_num⟩, ⟨by linarith, by linarith⟩,
      ⟨by norm_num, by norm_num⟩⟩
  · obtain ⟨ha, hb⟩ := h3
    exact ⟨⟨by norm_num, by norm_num⟩, ⟨by norm_num, by norm_num⟩,
      ⟨by linarith, by linarith⟩⟩
  · obtain ⟨ha, hb⟩ := h4
    exact ⟨⟨by linarith, by linarith⟩, ⟨by norm_num, by norm_num⟩,
      ⟨by norm_num, by norm_num⟩⟩
  · obtain ⟨ha, hb⟩ := h5
    exact ⟨⟨by norm_num, by norm_num⟩, ⟨by linarith, by linarith⟩,
      ⟨by norm_num, by norm_num⟩⟩
  · exact ⟨⟨by norm_num, by norm_num⟩, ⟨by norm_num, by norm_num⟩,
      ⟨by norm_num, by norm_num⟩⟩
  · exact ⟨⟨by norm_num, by norm_num⟩, ⟨by norm_num, by norm_num⟩,
      ⟨by norm_num, by norm_num⟩⟩

theorem brightnessFactor_mem (nm : ℚ) :
    0 ≤ brightnessFactor nm ∧ brightnessFactor nm ≤ 1 := by
  unfold brightnessFactor
  split_ifs with h1 h2 h3
  · obtain ⟨ha, hb⟩ := h1
    exact ⟨by linarith, by linarith⟩
  · exact ⟨by norm_num, by norm_num⟩
  · obtain ⟨ha, hb⟩ := h3
    exact ⟨by linarith, by linarith⟩
  · exact ⟨by norm_num, by norm_num⟩

/-!
## Claim theorems: the colour mapper
-/

/-- C4 counterexample: `wavelength_to_rgb 300` (outside the visible band)
returns (0, 0, 0), not the neutral gray (128, 128, 128) the claim states:
the fall-through attenuation factor 0 is applied to the 0.5 raw
channels. -/
theorem claim_C4_counterexample :
    wavelength_to_rgb 300 = (0, 0, 0) ∧
    wavelength_to_rgb 300 ≠ (128, 128, 128) := by
  have h : wavelength_to_rgb 300 = (0, 0, 0) := by
    norm_num [wavelength_to_rgb, rawRGB, brightnessFactor, pyRound]
  refine ⟨h, ?_⟩
  rw [h]
  decide

/-- C4 (amended): for every wavelength nm outside [380, 750],
`wavelength_to_rgb nm` returns (0, 0, 0): the raw channels fall through
to 0.5 each, but the brightness attenuation factor also falls through to
0 and IS applied, so every channel rounds to 0. -/
theorem claim_C4_outside_spectrum (nm : ℚ) (h : nm < 380 ∨ 750 < nm) :
    wavelength_to_rgb nm = (0, 0, 0) := by
  have hraw : rawRGB nm = (1/2, 1/2, 1/2) := by
    unfold rawRGB
    split_ifs with h1 h2 h3 h4 h5 h6
    · exfalso; rcases h with h | h
      · linarith [h1.1]
      · linarith [h1.2]
    · exfalso; rcases h with h | h
      · linarith [h2.1]
      · linarith [h2.2]
    · exfalso; rcases h with h | h
      · linarith [h3.1]
      · linarith [h3.2]
    · exfalso; rcases h with h | h
      · linarith [h4.1]
      · linarith [h4.2]
    · exfalso; rcases h with h | h
      · linarith [h5.1]
      · linarith [h5.2]
    · exfalso; rcases h with h | h
      · linarith [h6.1]
      · linarith [h6.2]
    · rfl
  have hfac : brightnessFactor nm = 0 := by
    unfold brightnessFactor
    split_ifs with h1 h2 h3
    · exfalso; rcases h with h | h
      · linarith [h1.1]
      · linarith [h1.2]
    · exfalso; rcases h with h | h
      · linarith [h2.1]
      · linarith [h2.2]
    · exfalso; rcases h with h | h
      · linarith [h3.1]
      · linarith [h3.2]
    · rfl
  unfold wavelength_to_rgb
  rw [hraw, hfac]
  norm_num [pyRound]

/-- Witness for the amended C4, at the claim's concrete input 300. -/
theorem claim_C4_witness :
    ((300:ℚ) < 380 ∨ 750 < (300:ℚ)) ∧ wavelength_to_rgb 300 = (0, 0, 0) :=
  ⟨Or.inl (by norm_num), claim_C4_outside_spectrum 300 (Or.inl (by norm_num))⟩

/-- C5: on the visible band [380, 750] the colour mapper agrees with the
specification formula (six-band Bruton table, edge attenuation ramps,
Python rounding of 255 times raw times factor), and the two reference
values hold: 650 nm maps to (255, 0, 0) and 550 nm to (146, 255, 0). -/
theorem claim_C5_bruton_table :
    (∀ nm : ℚ, 380 ≤ nm → nm ≤ 750 → wavelength_to_rgb nm = specRGB nm) ∧
    wavelength_to_rgb 650 = (255, 0, 0) ∧
    wavelength_to_rgb 550 = (146, 255, 0) := by
  refine ⟨fun nm h1 h2 => ?_, ?_, ?_⟩
  · have hraw : rawRGB nm = specRawRGB nm := by
      unfold rawRGB specRawRGB
      split_ifs <;> norm_num
    have hfac : brightnessFactor nm = specFactor nm := by
      unfold brightnessFactor specFactor
      split_ifs <;> ring
    unfold wavelength_to_rgb specRGB
    rw [hraw, hfac]
  · norm_num [wavelength_to_rgb, rawRGB, brightnessFactor, pyRound]
  · norm_num [wavelength_to_rgb, rawRGB, brightnessFactor, pyRound]

/-- Witness for C5, instantiating the quantified part at 400 nm. -/
theorem claim_C5_witness :
    (380:ℚ) ≤ 400 ∧ (400:ℚ) ≤ 750 ∧ wavelength_to_rgb 400 = specRGB 400 :=
  ⟨by norm_num, by norm_num,
    claim_C5_bruton_table.1 400 (by norm_num) (by norm_num)⟩

/-- C10: for every rational wavelength (inside or outside the visible
band, including negatives) the raw channels lie in [0, 1], the
attenuation factor lies in [0, 1], and every output channel of
`wavelength_to_rgb` is an integer in [0, 255]. -/
theorem claim_C10_byte_range (nm : ℚ) :
    (0 ≤ (rawRGB nm).1 ∧ (rawRGB nm).1 ≤ 1) ∧
    (0 ≤ (rawRGB nm).2.1 ∧ (rawRGB nm).2.1 ≤ 1) ∧
    (0 ≤ (rawRGB nm).2.2 ∧ (rawRGB nm).2.2 ≤ 1) ∧
    (0 ≤ brightnessFactor nm ∧ brightnessFactor nm ≤ 1) ∧
    (0 ≤ (wavelength_to_rgb nm).1 ∧ (wavelength_to_rgb nm).1 ≤ 255) ∧
    (0 ≤ (wavelength_to_rgb nm).2.1 ∧ (wavelength_to_rgb nm).2.1 ≤ 255) ∧
    (0 ≤ (wavelength_to_rgb nm).2.2 ∧ (wavelength_to_rgb nm).2.2 ≤ 255) := by
  obtain ⟨hr, hg, hb⟩ := rawRGB_mem nm
  obtain ⟨hf0, hf1⟩ := brightnessFactor_mem nm
  have chan : ∀ c : ℚ, 0 ≤ c → c ≤ 1 →
      0 ≤ pyRound (255 * c * brightnessFactor nm) ∧
      pyRound (255 * c * brightnessFactor nm) ≤ 255 := by
    intro c hc0 hc1
    apply pyRound_mem
    · positivity
    · nlinarith
  exact ⟨hr, hg, hb, ⟨hf0, hf1⟩, chan _ hr.1 hr.2, chan _ hg.1 hg.2,
    chan _ hb.1 hb.2⟩

/-!
## Claim theorems: the wave field
-/

/-- C2: with dispersion on, the effective indices follow the Cauchy-style
corrections (and only n2 and n3 are corrected); with dispersion off they
equal n2 and n3 with no dependence on the wavelength; and the three wave
numbers are 2 pi times the (effective) index over the wavelength, with n1
used unmodified for k1. -/
theorem claim_C2_dispersion (s : WaveState) (wavelength : ℝ)
    (hwl : 0 < wavelength) :
    (s.prism_mode = true →
      n2_wl s wavelength = s.n2 + 0.0006 * (550 / wavelength) ^ 2 ∧
      n3_wl s wavelength = s.n3 + 0.0008 * (550 / wavelength) ^ 2) ∧
    (s.prism_mode = false →
      ∀ w : ℝ, n2_wl s w = s.n2 ∧ n3_wl s w = s.n3) ∧
    k1 s wavelength = 2 * Real.pi * s.n1 / wavelength ∧
    k2 s wavelength = 2 * Real.pi * n2_wl s wavelength / wavelength ∧
    k3 s wavelength = 2 * Real.pi * n3_wl s wavelength / wavelength := by
  refine ⟨fun h => ?_, fun h w => ?_, rfl, rfl, rfl⟩
  · simp [n2_wl, n3_wl, h]
  · simp [n2_wl, n3_wl, h]

/-- Witness for C2 at the default state and wavelength 550. -/
theorem claim_C2_witness :
    (0:ℝ) < 550 ∧
    ((s0.prism_mode = true →
      n2_wl s0 550 = s0.n2 + 0.0006 * (550 / 550) ^ 2 ∧
      n3_wl s0 550 = s0.n3 + 0.0008 * (550 / 550) ^ 2) ∧
    (s0.prism_mode = false →
      ∀ w : ℝ, n2_wl s0 w = s0.n2 ∧ n3_wl s0 w = s0.n3) ∧
    k1 s0 550 = 2 * Real.pi * s0.n1 / 550 ∧
    k2 s0 550 = 2 * Real.pi * n2_wl s0 550 / 550 ∧
    k3 s0 550 = 2 * Real.pi * n3_wl s0 550 / 550) :=
  ⟨by norm_num, claim_C2_dispersion s0 550 (by norm_num)⟩

/-- C1: for valid boundaries, the three regions are mutually exclusive
and cover every sample, and the sample at index i equals the
region-specific piecewise formula, with the region-2 and region-3 phases
measured from their own boundary (phase reset). -/
theorem claim_C1_piecewise (s : WaveState) (wavelength : ℝ)
    (hb0 : 0 ≤ s.boundary1) (hb : s.boundary1 < s.boundary2)
    (hb3 : s.boundary2 ≤ 3000) (i : ℕ) (hi : i < 3000) :
    (xPos i ≤ s.boundary1 ∨ (s.boundary1 < xPos i ∧ xPos i ≤ s.boundary2) ∨
      s.boundary2 < xPos i) ∧
    ¬(xPos i ≤ s.boundary1 ∧ s.boundary1 < xPos i ∧ xPos i ≤ s.boundary2) ∧
    ¬(xPos i ≤ s.boundary1 ∧ s.boundary2 < xPos i) ∧
    ¬((s.boundary1 < xPos i ∧ xPos i ≤ s.boundary2) ∧ s.boundary2 < xPos i) ∧
    (calculate_wave s wavelength).getD i 0 =
      (if xPos i ≤ s.boundary1 then
        s.amplitude * visualization_scale *
          Real.sin (k1 s wavelength * xPos i - s.speed * s.time)
      else if xPos i ≤ s.boundary2 then
        s.amplitude * visualization_scale *
          Real.sin (k2 s wavelength * (xPos i - s.boundary1) - s.speed * s.time)
      else
        s.amplitude * visualization_scale *
          Real.sin (k3 s wavelength * (xPos i - s.boundary2) - s.speed * s.time)) := by
  refine ⟨?_, ?_, ?_, ?_, ?_⟩
  · rcases le_or_lt (xPos i) s.boundary1 with h | h
    · exact Or.inl h
    · rcases le_or_lt (xPos i) s.boundary2 with h2 | h2
      · exact Or.inr (Or.inl ⟨h, h2⟩)
      · exact Or.inr (Or.inr h2)
  · rintro ⟨h1, h2, _⟩; linarith
  · rintro ⟨h1, h2⟩; linarith
  · rintro ⟨⟨_, h1⟩, h2⟩; linarith
  · rw [calculate_wave_getD s wavelength i hi]
    unfold waveAt
    rcases le_or_lt (xPos i) s.boundary1 with h | h
    · have hnb2 : ¬ s.boundary2 < xPos i := not_lt.mpr (by linarith)
      have hnm2 : ¬ (s.boundary1 < xPos i ∧ xPos i ≤ s.boundary2) := by
        rintro ⟨h1, _⟩; linarith
      rw [if_neg hnb2, if_neg hnm2, if_pos h, if_pos h]
    · rcases le_or_lt (xPos i) s.boundary2 with h2 | h2
      · have hnb2 : ¬ s.boundary2 < xPos i := not_lt.mpr h2
        have hn1 : ¬ xPos i ≤ s.boundary1 := not_le.mpr h
        rw [if_neg hnb2, if_pos (⟨h, h2⟩ : s.boundary1 < xPos i ∧
          xPos i ≤ s.boundary2), if_neg hn1, if_pos h2]
      · have hn1 : ¬ xPos i ≤ s.boundary1 := not_le.mpr (by linarith)
        have hn2 : ¬ xPos i ≤ s.boundary2 := not_le.mpr h2
        rw [if_pos h2, if_neg hn1, if_neg hn2]

/-- Witness for C1 at the default state, wavelength 550, sample 0. -/
theorem claim_C1_witness :
    (0:ℝ) ≤ s0.boundary1 ∧ s0.boundary1 < s0.boundary2 ∧
    s0.boundary2 ≤ 3000 ∧ (0:ℕ) < 3000 ∧
    ((xPos 0 ≤ s0.boundary1 ∨ (s0.boundary1 < xPos 0 ∧ xPos 0 ≤ s0.boundary2) ∨
      s0.boundary2 < xPos 0) ∧
    ¬(xPos 0 ≤ s0.boundary1 ∧ s0.boundary1 < xPos 0 ∧ xPos 0 ≤ s0.boundary2) ∧
    ¬(xPos 0 ≤ s0.boundary1 ∧ s0.boundary2 < xPos 0) ∧
    ¬((s0.boundary1 < xPos 0 ∧ xPos 0 ≤ s0.boundary2) ∧ s0.boundary2 < xPos 0) ∧
    (calculate_wave s0 550).getD 0 0 =
      (if xPos 0 ≤ s0.boundary1 then
        s0.amplitude * visualization_scale *
          Real.sin (k1 s0 550 * xPos 0 - s0.speed * s0.time)
      else if xPos 0 ≤ s0.boundary2 then
        s0.amplitude * visualization_scale *
          Real.sin (k2 s0 550 * (xPos 0 - s0.boundary1) - s0.speed * s0.time)
      else
        s0.amplitude * visualization_scale *
          Real.sin (k3 s0 550 * (xPos 0 - s0.boundary2) - s0.speed * s0.time))) :=
  ⟨by norm_num [s0], by norm_num [s0], by norm_num [s0], by norm_num,
    claim_C1_piecewise s0 550 (by norm_num [s0]) (by norm_num [s0])
      (by norm_num [s0]) 0 (by norm_num)⟩

/-- C3: for every parameter set satisfying the stated invariants,
`calculate_wave` returns exactly 3000 values, and every value is a real
number bounded in magnitude by `|amplitude| * 0.1` — in this exact-real
model the bound is the meaningful form of "no NaN and no Infinity". -/
theorem claim_C3_total (s : WaveState) (wavelength : ℝ)
    (hwl : 0 < wavelength) (hn1 : 0 < s.n1) (hn2 : 0 < s.n2)
    (hn3 : 0 < s.n3) (hb0 : 0 ≤ s.boundary1) (hb : s.boundary1 < s.boundary2)
    (hb3 : s.boundary2 ≤ 3000) :
    (calculate_wave s wavelength).length = 3000 ∧
    ∀ v ∈ calculate_wave s wavelength,
      |v| ≤ |s.amplitude| * visualization_scale := by
  refine ⟨calculate_wave_length s wavelength, fun v hv => ?_⟩
  unfold calculate_wave at hv
  obtain ⟨i, hmem, rfl⟩ := List.mem_map.mp hv
  exact abs_waveAt_le s wavelength (xPos i)

/-- Witness for C3 at the default state and wavelength 550. -/
theorem claim_C3_witness :
    (0:ℝ) < 550 ∧ 0 < s0.n1 ∧ 0 < s0.n2 ∧ 0 < s0.n3 ∧
    0 ≤ s0.boundary1 ∧ s0.boundary1 < s0.boundary2 ∧ s0.boundary2 ≤ 3000 ∧
    ((calculate_wave s0 550).length = 3000 ∧
    ∀ v ∈ calculate_wave s0 550, |v| ≤ |s0.amplitude| * visualization_scale) :=
  ⟨by norm_num, by norm_num [s0], by norm_num [s0], by norm_num [s0],
    by norm_num [s0], by norm_num [s0], by norm_num [s0],
    claim_C3_total s0 550 (by norm_num) (by norm_num [s0]) (by norm_num [s0])
      (by norm_num [s0]) (by norm_num [s0]) (by norm_num [s0])
      (by norm_num [s0])⟩

/-- C6: for every parameter set with the boundary order violated
(boundary1 ≥ boundary2, in particular boundary1 = 2000 and
boundary2 = 1000), `calculate_wave` still returns a well-defined
3000-sample sequence (no fault, no division by the boundaries), its
degraded output is fully characterised — the region-2 mask is empty and
the overlapping mask1/mask3 writes leave the region-3 formula wherever
x > boundary2 and the region-1 formula elsewhere — and the output is
deterministic in the parameters. -/
theorem claim_C6_boundary_violation (s : WaveState) (wavelength : ℝ)
    (hbv : s.boundary2 ≤ s.boundary1) :
    (calculate_wave s wavelength).length = 3000 ∧
    (∀ i, i < 3000 → (calculate_wave s wavelength).getD i 0 =
      (if s.boundary2 < xPos i then
        s.amplitude * visualization_scale *
          Real.sin (k3 s wavelength * (xPos i - s.boundary2) - s.speed * s.time)
      else
        s.amplitude * visualization_scale *
          Real.sin (k1 s wavelength * xPos i - s.speed * s.time))) ∧
    (∀ t : WaveState, t = s →
      calculate_wave t wavelength = calculate_wave s wavelength) := by
  refine ⟨calculate_wave_length s wavelength, fun i hi => ?_,
    fun t ht => by rw [ht]⟩
  rw [calculate_wave_getD s wavelength i hi]
  unfold waveAt
  rcases lt_or_le s.boundary2 (xPos i) with h | h
  · rw [if_pos h, if_pos h]
  · have hn : ¬ (s.boundary1 < xPos i ∧ xPos i ≤ s.boundary2) := by
      rintro ⟨h1, h2⟩; linarith
    have hx1 : xPos i ≤ s.boundary1 := le_trans h hbv
    rw [if_neg (not_lt.mpr h), if_neg hn, if_pos hx1, if_neg (not_lt.mpr h)]

/-- Witness for C6 at the claim's named violating instance
boundary1 = 2000, boundary2 = 1000 (state s1) and wavelength 550. -/
theorem claim_C6_witness :
    s1.boundary1 = 2000 ∧ s1.boundary2 = 1000 ∧ s1.boundary2 ≤ s1.boundary1 ∧
    ((calculate_wave s1 550).length = 3000 ∧
    (∀ i, i < 3000 → (calculate_wave s1 550).getD i 0 =
      (if s1.boundary2 < xPos i then
        s1.amplitude * visualization_scale *
          Real.sin (k3 s1 550 * (xPos i - s1.boundary2) - s1.speed * s1.time)
      else
        s1.amplitude * visualization_scale *
          Real.sin (k1 s1 550 * xPos i - s1.speed * s1.time))) ∧
    (∀ t : WaveState, t = s1 →
      calculate_wave t 550 = calculate_wave s1 550)) :=
  ⟨rfl, rfl, by norm_num [s1],
    claim_C6_boundary_violation s1 550 (by norm_num [s1])⟩

/-- C7: the method is pure — it leaves the widget state exactly as it
found it — and a second call with the identical state and wavelength
returns the identical 3000-sample sequence. -/
theorem claim_C7_pure_idempotent (s : WaveState) (wavelength : ℝ) :
    (calculate_wave_method s wavelength).2 = s ∧
    (calculate_wave_method (calculate_wave_method s wavelength).2
        wavelength).1 = (calculate_wave_method s wavelength).1 ∧
    (calculate_wave_method (calculate_wave_method s wavelength).2
        wavelength).2 = s :=
  ⟨rfl, rfl, rfl⟩

/-- C8: with a nonnegative amplitude every sample of `calculate_wave` is
bounded in magnitude by `amplitude * 0.1`, with no hypothesis on the
wavelength, the indices, the boundaries or the time. -/
theorem claim_C8_amplitude_bound (s : WaveState) (wavelength : ℝ)
    (hA : 0 ≤ s.amplitude) :
    ∀ v ∈ calculate_wave s wavelength,
      |v| ≤ s.amplitude * visualization_scale := by
  intro v hv
  unfold calculate_wave at hv
  obtain ⟨i, hmem, rfl⟩ := List.mem_map.mp hv
  have h := abs_waveAt_le s wavelength (xPos i)
  rwa [abs_of_nonneg hA] at h

/-- Witness for C8 at the default state and wavelength 550. -/
theorem claim_C8_witness :
    (0:ℝ) ≤ s0.amplitude ∧
    ∀ v ∈ calculate_wave s0 550, |v| ≤ s0.amplitude * visualization_scale :=
  ⟨by norm_num [s0], claim_C8_amplitude_bound s0 550 (by norm_num [s0])⟩

/-- C9: non-interference across regions.  If two states agree on every
field except n1, the outputs agree at every sample with x > boundary1;
if they agree on every field except n2, the outputs agree at every
sample with x ≤ boundary1 or x > boundary2. -/
theorem claim_C9_noninterference (s t : WaveState) (wavelength : ℝ)
    (hb0 : 0 ≤ s.boundary1) (hb : s.boundary1 < s.boundary2)
    (hb3 : s.boundary2 ≤ 3000) :
    ((t.wavelength = s.wavelength ∧ t.amplitude = s.amplitude ∧
      t.speed = s.speed ∧ t.n2 = s.n2 ∧ t.n3 = s.n3 ∧ t.time = s.time ∧
      t.prism_mode = s.prism_mode ∧ t.white_light = s.white_light ∧
      t.boundary1 = s.boundary1 ∧ t.boundary2 = s.boundary2) →
      ∀ i, i < 3000 → s.boundary1 < xPos i →
        (calculate_wave t wavelength).getD i 0 =
        (calculate_wave s wavelength).getD i 0) ∧
    ((t.wavelength = s.wavelength ∧ t.amplitude = s.amplitude ∧
      t.speed = s.speed ∧ t.n1 = s.n1 ∧ t.n3 = s.n3 ∧ t.time = s.time ∧
      t.prism_mode = s.prism_mode ∧ t.white_light = s.white_light ∧
      t.boundary1 = s.boundary1 ∧ t.boundary2 = s.boundary2) →
      ∀ i, i < 3000 → (xPos i ≤ s.boundary1 ∨ s.boundary2 < xPos i) →
        (calculate_wave t wavelength).getD i 0 =
        (calculate_wave s wavelength).getD i 0) := by
  constructor
  · rintro ⟨e1, e2, e3, e4, e5, e6, e7, e8, e9, e10⟩ i hi hx
    rw [calculate_wave_getD t wavelength i hi,
      calculate_wave_getD s wavelength i hi]
    unfold waveAt k2 k3 n2_wl n3_wl
    rw [e2, e3, e4, e5, e6, e7, e9, e10]
    split_ifs with h1 h2 h3 <;> first | rfl | (exfalso; linarith)
  · rintro ⟨e1, e2, e3, e4, e5, e6, e7, e8, e9, e10⟩ i hi hx
    rw [calculate_wave_getD t wavelength i hi,
      calculate_wave_getD s wavelength i hi]
    unfold waveAt k1 k3 n3_wl
    rw [e2, e3, e4, e5, e6, e7, e9, e10]
    split_ifs with h1 h2 h3 <;>
      first
      | rfl
      | (exfalso; obtain ⟨hA2, hB2⟩ := h3;
         rcases hx with hx | hx <;> linarith)

/-- Witness for C9 at the default state (taken for both states) and
wavelength 550. -/
theorem claim_C9_witness :
    (0:ℝ) ≤ s0.boundary1 ∧ s0.boundary1 < s0.boundary2 ∧
    s0.boundary2 ≤ 3000 ∧
    (((s0.wavelength = s0.wavelength ∧ s0.amplitude = s0.amplitude ∧
      s0.speed = s0.speed ∧ s0.n2 = s0.n2 ∧ s0.n3 = s0.n3 ∧
      s0.time = s0.time ∧ s0.prism_mode = s0.prism_mode ∧
      s0.white_light = s0.white_light ∧ s0.boundary1 = s0.boundary1 ∧
      s0.boundary2 = s0.boundary2) →
      ∀ i, i < 3000 → s0.boundary1 < xPos i →
        (calculate_wave s0 550).getD i 0 =
        (calculate_wave s0 550).getD i 0) ∧
    ((s0.wavelength = s0.wavelength ∧ s0.amplitude = s0.amplitude ∧
      s0.speed = s0.speed ∧ s0.n1 = s0.n1 ∧ s0.n3 = s0.n3 ∧
      s0.time = s0.time ∧ s0.prism_mode = s0.prism_mode ∧
      s0.white_light = s0.white_light ∧ s0.boundary1 = s0.boundary1 ∧
      s0.boundary2 = s0.boundary2) →
      ∀ i, i < 3000 → (xPos i ≤ s0.boundary1 ∨ s0.boundary2 < xPos i) →
        (calculate_wave s0 550).getD i 0 =
        (calculate_wave s0 550).getD i 0)) :=
  ⟨by norm_num [s0], by norm_num [s0], by norm_num [s0],
    claim_C9_noninterference s0 s0 550 (by norm_num [s0]) (by norm_num [s0])
      (by norm_num [s0])⟩

end LightVis
